import Mathlib

/-!
Verification of the DocuChat backend core (`backend/app.py`): a shallow
embedding of the session-scoped retrieval-and-indexing manager.  The Flask
globals (`vector_store`, `qa_chain`, `all_documents`, `active_session_id`,
`document_metadata`) become an explicit `SlotState`; the durable chat-history
file becomes a `SessionsData` value threaded through the session operations.
External capabilities (Ollama embeddings, Chroma index construction and
loading, the LLM answer generation) are modelled as explicit parameters:
a `Bool` success flag where the code only observes success/raise, an
`Option` result where the code consumes a value produced by the capability.
-/

namespace DocuChat

/-! ### Python string helpers -/

/-- Python whitespace class `\s` restricted to ASCII, as used by
`str.strip()` and the citation regex. -/
def isPySpace (c : Char) : Bool :=
  c = (' ') || c = ('\t') || c = ('\n') || c = ('\r') || c = ('\x0b') || c = ('\x0c')

/-- Python `str.strip()` on a character list: drop leading and trailing whitespace. -/
def pyStripL (l : List Char) : List Char :=
  ((l.dropWhile isPySpace).reverse.dropWhile isPySpace).reverse

/-- Python `str.strip()` on a string. -/
def pyStrip (s : String) : String :=
  ⟨pyStripL s.data⟩

/-- A sentence-ending character for the citation regex `(?<=[.!?])\s+`. -/
def sentEnd (c : Char) : Bool :=
  c = ('.') || c = ('!') || c = ('?')

/-- Lookbehind test: the previous character (if any) ends a sentence. -/
def prevEnd : Option Char → Bool
  | some p => sentEnd p
  | none => false

/-- Left-to-right scan implementing `re.split` on the pattern `(?<=[.!?])\s+`:
`prev` is the last character consumed, `inGap` whether we are inside a
separator match (a maximal whitespace run preceded by `.`, `!` or `?`),
`acc` the current piece reversed. -/
def splitSentGo : List Char → Option Char → Bool → List Char → List (List Char)
  | [], _, false, acc => [acc.reverse]
  | [], _, true, acc => [acc.reverse, []]
  | c :: rest, prev, false, acc =>
    if prevEnd prev && isPySpace c then
      splitSentGo rest (some c) true acc
    else
      splitSentGo rest (some c) false (c :: acc)
  | c :: rest, _, true, acc =>
    if isPySpace c then
      splitSentGo rest (some c) true acc
    else
      acc.reverse :: splitSentGo rest (some c) false [c]

/-- Model of `re.split` on the pattern `(?<=[.!?])\s+` over a character list. -/
def splitSentences (l : List Char) : List (List Char) :=
  splitSentGo l none false []

/-- The ellipsis appended by `format_citation_text`. -/
def ellipsisL : List Char :=
  ['.', ('.'), ('.')]

/-- The 300-character backstop of `format_citation_text`:
`if len(result) > 300: result = result[:297] + ...`. -/
def applyCap (r : List Char) : List Char :=
  if r.length > 300 then r.take 297 ++ ellipsisL else r

/-- `format_citation_text(text, max_sentences)` over a character list:
strip, split into sentences, keep the first `max_sentences`, join with a
single space, append an ellipsis when sentences were dropped, then apply
the 300-character cap. -/
def fctL (text : List Char) (max_sentences : Nat) : List Char :=
  let t := pyStripL text
  let sentences := splitSentences t
  let selected := sentences.take max_sentences
  let result := List.intercalate [' '] selected
  let result := if sentences.length > max_sentences then result ++ ellipsisL else result
  applyCap result

/-- Model of `format_citation_text` (`app.py`, lines 529-551). -/
def format_citation_text (text : String) (max_sentences : Nat) : String :=
  ⟨fctL text.data max_sentences⟩

/-- Model of `generate_chat_name` (`app.py`, lines 95-101): strip the question and
truncate to 47 characters plus `"..."` when the stripped form exceeds 50. -/
def generate_chat_name (question : String) : String :=
  let name := pyStrip question
  if name.length > 50 then ⟨name.data.take 47⟩ ++ ("...") else name

/-- Python `doc.metadata.get(page, N/A)`: page number rendered as a string,
`"N/A"` when absent. -/
def pageStr : Option Nat → String
  | some n => toString n
  | none => ("N/A")

/-! ### Association-list maps (Python `dict` with string keys) -/

/-- First value stored under key `k`. -/
def lookupKey {α : Type} : List (String × α) → String → Option α
  | [], _ => none
  | p :: rest, k => if p.1 = k then some p.2 else lookupKey rest k

/-- Membership test `k in d` for a Python dict. -/
def hasKey {α : Type} (m : List (String × α)) (k : String) : Bool :=
  (lookupKey m k).isSome

/-- Assignment `d[k] = v`: replace in place when the key exists, append otherwise
(Python dicts preserve insertion order). -/
def setKey {α : Type} (m : List (String × α)) (k : String) (v : α) : List (String × α) :=
  if hasKey m k then m.map (fun p => if p.1 = k then (k, v) else p) else m ++ [(k, v)]

/-- Deletion `del d[k]`. -/
def delKey {α : Type} (m : List (String × α)) (k : String) : List (String × α) :=
  m.filter (fun p => ¬ p.1 = k)

/-- In-place mutation of the value stored under `k`. -/
def updateKey {α : Type} (m : List (String × α)) (k : String) (f : α → α) : List (String × α) :=
  m.map (fun p => if p.1 = k then (k, f p.2) else p)

/-! ### Data model -/

/-- Registry record: `document_metadata[file_id] = {filename, chunks, pages}`
(`app.py`, lines 505-509). -/
structure DocMeta where
  filename : String
  chunks : Nat
  pages : Nat
deriving DecidableEq

/-- A document chunk as produced by the chunking pipeline: page content plus
the metadata the code attaches (`source`, `file_id`) and reads (`page`). -/
structure Chunk where
  content : String
  source : String
  file_id : String
  page : Option Nat
deriving DecidableEq

/-- A materialized Chroma index: the collection name it was created under and
the chunks it holds. -/
structure IndexHandle where
  collection : String
  docs : List Chunk
deriving DecidableEq

/-- The module-level mutable globals of `app.py` (lines 59-63): the Vector
Index Slot (`vector_store`, `all_documents`, `active_session_id`), the QA
chain, and the Document Registry (`document_metadata`). -/
structure SlotState where
  vector_store : Option IndexHandle
  qa_chain : Option IndexHandle
  all_documents : List Chunk
  active_session_id : Option String
  document_metadata : List (String × DocMeta)
deriving DecidableEq

/-- A formatted citation (`app.py`, lines 584-591). -/
structure Citation where
  id : Nat
  content : String
  source : String
  page : String
deriving DecidableEq

/-- A chat message (`app.py`, lines 151-157). -/
structure Message where
  id : String
  timestamp : String
  question : String
  answer : String
  citations : List Citation
deriving DecidableEq

/-- A chat session (`app.py`, lines 124-131).  `documents` is `none` for a
legacy record lacking the key (`app.py`, line 169). -/
structure ChatSession where
  id : String
  name : String
  created_at : String
  updated_at : String
  messages : List Message
  documents : Option (List (String × DocMeta))
deriving DecidableEq

/-- The durable chat-history root `{sessions, active_session}`. -/
structure SessionsData where
  sessions : List (String × ChatSession)
  active_session : Option String
deriving DecidableEq

/-! ### Operations on the Vector Index Slot -/

/-- Model of `create_vector_store(chunks, collection_name, add_to_existing, session_id)`
(`app.py`, lines 311-350), with the embedding/index-construction capability
(`Chroma.from_documents` / `add_documents`) modelled by `embedOk`.  Returns
the new global state and `true` on success, `false` when the capability
raised (the exception propagates to the caller).  The mutation order of the
source is preserved: on the rebuild path `all_documents` and
`active_session_id` are assigned before the index is constructed; on the
extend path `all_documents.extend(chunks)` precedes `add_documents`. -/
def create_vector_store (embedOk : Bool) (chunks : List Chunk)
    (collection_name : String) (add_to_existing : Bool)
    (session_id : Option String) (s : SlotState) : SlotState × Bool :=
  let cn := match session_id with
    | some sid => ("session_") ++ sid
    | none => collection_name
  if add_to_existing ∧ s.vector_store.isSome ∧ s.active_session_id = session_id then
    let s1 := { s with all_documents := s.all_documents ++ chunks }
    if embedOk then
      ({ s1 with
          vector_store := s1.vector_store.map
            (fun h => { h with docs := h.docs ++ chunks }) }, true)
    else
      (s1, false)
  else
    let s1 := { s with all_documents := chunks, active_session_id := session_id }
    if embedOk then
      ({ s1 with vector_store := some ⟨cn, chunks⟩ }, true)
    else
      (s1, false)

/-- Model of `initialize_qa_chain` (`app.py`, lines 391-442): raises (returns `false`)
when no vector store is initialized, otherwise wraps the current store in a
fresh retrieval chain. -/
def initialize_qa_chain (s : SlotState) : SlotState × Bool :=
  match s.vector_store with
  | none => (s, false)
  | some h => ({ s with qa_chain := some h }, true)

/-- Model of `load_session_vector_store(session_id)` (`app.py`, lines 352-389).
`loadCap` models the `Chroma(collection_name=..., persist_directory=...)`
load capability: `none` when it raises (no durable index for the session),
`some h` when it yields a handle.  On the cache-hit path
(`active_session_id == session_id and vector_store is not None`) nothing is
touched and `true` is returned; on a failed load the exception is caught and
`false` returned with the globals untouched. -/
def load_session_vector_store (loadCap : Option IndexHandle)
    (session_id : String) (s : SlotState) : SlotState × Bool :=
  if s.active_session_id = some session_id ∧ s.vector_store.isSome then
    (s, true)
  else
    match loadCap with
    | none => (s, false)
    | some h =>
      let s1 := { s with vector_store := some h, active_session_id := some session_id }
      ((initialize_qa_chain s1).1, true)

/-! ### Upload and removal -/

/-- Model of `allowed_file(filename)` (`app.py`, lines 65-67): the filename contains a
dot and its lowercased extension (`rsplit('.', 1)[1]`) is `pdf`, `docx` or
`doc`. -/
def allowed_file (filename : String) : Bool :=
  filename.data.contains ('.') &&
    (let ext := ((filename.data.reverse.takeWhile (fun c => ¬ c = ('.'))).reverse).map Char.toLower
     ext == ("pdf").data || ext == ("docx").data || ext == ("doc").data)

/-- Outcome of the `/upload` endpoint. -/
inductive UploadResult where
  | errNoFile
  | errNoFileSelected
  | errBadType
  | errProcess
  | ok (file_id : String) (chunks pages total_documents : Nat)
deriving DecidableEq

/-- Model of `upload_document` (`app.py`, lines 452-527).  `hasFileField` and
`filename` model the multipart request; `pages` models `load_document`
(`none` when the parser raises, `some n` for `n` parsed pages); `chunks` is
the output of the external chunking pipeline for this document; `embedOk`
the embedding capability.  The vector store is always created in ungrouped
mode: `session_id=None` (`app.py`, line 499).  `secure_filename` is external
sanitation and not modelled; no claim depends on it. -/
def upload_document (hasFileField : Bool) (filename : String)
    (add_to_existing : Bool) (file_id : String) (pages : Option Nat)
    (chunks : List Chunk) (embedOk : Bool) (s : SlotState) :
    SlotState × UploadResult :=
  if ¬ hasFileField then (s, .errNoFile)
  else if filename = ("") then (s, .errNoFileSelected)
  else if ¬ allowed_file filename then (s, .errBadType)
  else
    match pages with
    | none => (s, .errProcess)
    | some npages =>
      let r1 := create_vector_store embedOk chunks ("docuchat") add_to_existing none s
      if r1.2 then
        let s2 := (initialize_qa_chain r1.1).1
        let s3 := { s2 with
          document_metadata :=
            setKey s2.document_metadata file_id ⟨filename, chunks.length, npages⟩ }
        (s3, .ok file_id chunks.length npages s3.document_metadata.length)
      else
        (r1.1, .errProcess)

/-- Outcome of the `/documents/<file_id>` DELETE endpoint. -/
inductive RemoveResult where
  | notFound
  | errProcess
  | ok (remaining_documents : Nat)
deriving DecidableEq

/-- Model of `remove_document(file_id)` (`app.py`, lines 612-661): delete the registry
record, filter the slot's chunks to those whose `file_id` differs, rebuild
the store from the remaining chunks when any are left (collection
`docuchat_multi`, `session_id=None`), otherwise null out `vector_store`,
`qa_chain` and `all_documents`. -/
def remove_document (embedOk : Bool) (file_id : String) (s : SlotState) :
    SlotState × RemoveResult :=
  if ¬ hasKey s.document_metadata file_id then (s, .notFound)
  else
    let s1 := { s with document_metadata := delKey s.document_metadata file_id }
    let remaining := s1.all_documents.filter (fun d => ¬ d.file_id = file_id)
    if ¬ remaining = [] then
      let s2 := { s1 with all_documents := remaining }
      let r1 := create_vector_store embedOk remaining ("docuchat_multi") false none s2
      if r1.2 then
        let s4 := (initialize_qa_chain r1.1).1
        (s4, .ok s4.document_metadata.length)
      else
        (r1.1, .errProcess)
    else
      ({ s1 with vector_store := none, qa_chain := none, all_documents := [] },
        .ok s1.document_metadata.length)

/-! ### Chat -/

/-- Outcome of the `/chat` endpoint. -/
inductive ChatResult where
  | noIndex
  | noQuestion
  | errProcess
  | ok (answer : String) (citations : List Citation) (question : String)
deriving DecidableEq

/-- Model of `chat` (`app.py`, lines 553-603).  `qaResult` models
`qa_chain({"query": question})`: `none` when the chain raises, otherwise the
answer text and the retrieved source documents.  The handler formats one
citation per retrieved chunk (1-based rank, text truncated by
`format_citation_text` with `max_sentences=3`, source filename, page or
`"N/A"`) and returns; the durable session store `sd` is passed through so
that the theorem can state exactly what the handler does to it. -/
def chat (qaResult : Option (String × List Chunk)) (question : Option String)
    (s : SlotState) (sd : SessionsData) : SessionsData × ChatResult :=
  if s.qa_chain = none then (sd, .noIndex)
  else
    match question with
    | none => (sd, .noQuestion)
    | some q =>
      match qaResult with
      | none => (sd, .errProcess)
      | some (answer, source_docs) =>
        let citations := source_docs.enum.map (fun p =>
          { id := p.1 + 1
            content := format_citation_text p.2.content 3
            source := p.2.source
            page := pageStr p.2.page : Citation })
        (sd, .ok answer citations q)

/-! ### Session Store operations -/

/-- Model of `create_new_session(first_question)` (`app.py`, lines 103-138).  The
fresh UUID and the timestamp are inputs; `document_metadata` is the registry
snapshot taken at creation.  Python truthiness: `if first_question:` treats
`None` and the empty string alike. -/
def create_new_session (first_question : Option String)
    (session_id now : String) (document_metadata : List (String × DocMeta))
    (sd : SessionsData) : SessionsData × String :=
  let name := match first_question with
    | some q =>
      if ¬ q = ("") then generate_chat_name q
      else ("New Chat ") ++ toString (sd.sessions.length + 1)
    | none => ("New Chat ") ++ toString (sd.sessions.length + 1)
  let sess : ChatSession :=
    { id := session_id, name := name, created_at := now, updated_at := now,
      messages := [], documents := some document_metadata }
  ({ sessions := setKey sd.sessions session_id sess,
     active_session := some session_id }, session_id)

/-- Model of `add_message_to_session(session_id, question, answer, citations)`
(`app.py`, lines 140-182).  Returns `false` and leaves the store unchanged
when the session id is unknown; otherwise appends the message, refreshes
`updated_at`, renames the session from the question when the appended
message is the first one, and fills in a missing `documents` snapshot. -/
def add_message_to_session (msg_id now : String)
    (document_metadata : List (String × DocMeta)) (session_id question answer : String)
    (citations : List Citation) (sd : SessionsData) : SessionsData × Bool :=
  match lookupKey sd.sessions session_id with
  | none => (sd, false)
  | some sess =>
    let message : Message :=
      { id := msg_id, timestamp := now, question := question,
        answer := answer, citations := citations }
    let msgs := sess.messages ++ [message]
    let sess1 := { sess with messages := msgs, updated_at := now }
    let sess2 :=
      if msgs.length = 1 then { sess1 with name := generate_chat_name question }
      else sess1
    let sess3 :=
      if sess2.documents = none then { sess2 with documents := some document_metadata }
      else sess2
    ({ sd with sessions := updateKey sd.sessions session_id (fun _ => sess3) }, true)

/-- Outcome of the rename endpoint. -/
inductive RenameResult where
  | errNoName
  | errInvalidName
  | errNotFound
  | ok
deriving DecidableEq

/-- Model of `rename_session(session_id)` (`app.py`, lines 730-757): the request body
must carry a name; the name is stripped and rejected when empty or longer
than 100 characters; an unknown session yields not-found; otherwise the name
and `updated_at` are updated. -/
def rename_session (session_id : String) (nameArg : Option String)
    (now : String) (sd : SessionsData) : SessionsData × RenameResult :=
  match nameArg with
  | none => (sd, .errNoName)
  | some raw =>
    let new_name := pyStrip raw
    if new_name = ("") ∨ new_name.length > 100 then (sd, .errInvalidName)
    else if ¬ hasKey sd.sessions session_id then (sd, .errNotFound)
    else
      ({ sd with
          sessions := updateKey sd.sessions session_id
            (fun sess => { sess with name := new_name, updated_at := now }) }, .ok)


/-! ### Helper lemmas shared by the claim theorems -/

/-- The 300-character backstop bounds the result length by 300. -/
theorem applyCap_length_le (r : List Char) : (applyCap r).length ≤ 300 := by
  unfold applyCap
  split <;> rename_i h
  · simp [ellipsisL]
  · omega

/-- Replacing the value under a present key makes lookup return it. -/
theorem lookupKey_map_set {α : Type} (m : List (String × α)) (k : String) (v : α)
    (h : hasKey m k = true) :
    lookupKey (m.map (fun p => if p.1 = k then (k, v) else p)) k = some v := by
  induction m with
  | nil => simp [hasKey, lookupKey] at h
  | cons p rest ih =>
    by_cases hk : p.1 = k
    · simp [lookupKey, hk]
    · have h' : hasKey rest k = true := by
        simpa [hasKey, lookupKey, hk] using h
      simpa [lookupKey, hk] using ih h'

/-- Appending a fresh key makes lookup return its value. -/
theorem lookupKey_append_single {α : Type} (m : List (String × α)) (k : String) (v : α)
    (h : hasKey m k = false) :
    lookupKey (m ++ [(k, v)]) k = some v := by
  induction m with
  | nil => simp [lookupKey]
  | cons p rest ih =>
    by_cases hk : p.1 = k
    · simp [hasKey, lookupKey, hk] at h
    · have h' : hasKey rest k = false := by
        simpa [hasKey, lookupKey, hk] using h
      simpa [lookupKey, hk] using ih h'

/-- Looking up the key just assigned returns the assigned value. -/
theorem lookupKey_setKey {α : Type} (m : List (String × α)) (k : String) (v : α) :
    lookupKey (setKey m k v) k = some v := by
  unfold setKey
  by_cases h : hasKey m k = true
  · rw [if_pos h]
    exact lookupKey_map_set m k v h
  · rw [if_neg h]
    exact lookupKey_append_single m k v (by simpa using h)

/-- Looking up the key of an in-place update returns the mapped value. -/
theorem lookupKey_updateKey {α : Type} (m : List (String × α)) (k : String) (f : α → α) :
    lookupKey (updateKey m k f) k = (lookupKey m k).map f := by
  induction m with
  | nil => simp [updateKey, lookupKey]
  | cons p rest ih =>
    by_cases hk : p.1 = k
    · simp [updateKey, lookupKey, hk]
    · simpa [updateKey, lookupKey, hk] using ih

/-- Reinitializing the QA chain does not move the session binding. -/
theorem initialize_qa_chain_active (s : SlotState) :
    (initialize_qa_chain s).1.active_session_id = s.active_session_id := by
  unfold initialize_qa_chain
  cases s.vector_store <;> simp

/-- Reinitializing the QA chain does not move the registry. -/
theorem initialize_qa_chain_metadata (s : SlotState) :
    (initialize_qa_chain s).1.document_metadata = s.document_metadata := by
  unfold initialize_qa_chain
  cases s.vector_store <;> simp

/-- A vector-store call in ungrouped mode (`session_id=None`) always leaves
`active_session_id` null, whether it extends, rebuilds or fails. -/
theorem create_vector_store_active_none (embedOk : Bool) (chunks : List Chunk)
    (cn : String) (add : Bool) (s : SlotState) :
    (create_vector_store embedOk chunks cn add none s).1.active_session_id = none := by
  by_cases hc : add = true ∧ s.vector_store.isSome = true ∧ s.active_session_id = none
  · cases embedOk <;> simp [create_vector_store, hc, hc.2.2]
  · cases embedOk <;> simp [create_vector_store, hc]


/-! ### Concrete fixtures used by counterexamples and witnesses -/

/-- A chunk of document A. -/
def chunkA : Chunk :=
  { content := ("Alpha."), source := ("a.pdf"), file_id := ("fidA"), page := some 1 }

/-- A chunk of document B. -/
def chunkB : Chunk :=
  { content := ("Beta."), source := ("b.pdf"), file_id := ("fidB"), page := some 2 }

/-- A slot holding document A, bound to session `sess0`. -/
def slotC1 : SlotState :=
  { vector_store := some ⟨("docuchat"), [chunkA]⟩
    qa_chain := some ⟨("docuchat"), [chunkA]⟩
    all_documents := [chunkA]
    active_session_id := some ("sess0")
    document_metadata := [(("fidA"), ⟨("a.pdf"), 1, 1⟩)] }

/-- The empty slot (fresh process). -/
def slotEmpty : SlotState :=
  { vector_store := none, qa_chain := none, all_documents := [],
    active_session_id := none, document_metadata := [] }

/-! ### C1 — atomicity of the rebuild path -/

/-- C1 counterexample: the claim says a failed rebuild leaves the slot's
prior state unchanged.  Starting from `slotC1` (index over `[chunkA]`,
bound to `sess0`), a rebuild of `[chunkB]` whose embedding capability fails
raises (`false`) but has already overwritten `all_documents` with the new
chunk list and `active_session_id` with the new binding, so the prior slot
state is not preserved. -/
theorem c1_rebuild_not_atomic_counterexample :
    (create_vector_store false [chunkB] ("docuchat") false none slotC1).2 = false ∧
    ¬ (create_vector_store false [chunkB] ("docuchat") false none slotC1).1 = slotC1 ∧
    (create_vector_store false [chunkB] ("docuchat") false none slotC1).1.all_documents
      = [chunkB] ∧
    ¬ slotC1.all_documents = [chunkB] ∧
    (create_vector_store false [chunkB] ("docuchat") false none slotC1).1.active_session_id
      = none := by
  decide

/-- C1 (amended): on the rebuild path (`add_to_existing=False`), when the
embedding/index-construction capability fails the call raises and installs
no new index handle — `vector_store`, `qa_chain` and the registry keep
their prior values — but `chunks` (`all_documents`) and the session binding
(`active_session_id`) have already been overwritten with the new values, so
the slot's full prior state is not preserved. -/
theorem c1_rebuild_failure_effect (chunks : List Chunk) (cn : String)
    (sid : Option String) (s : SlotState) :
    create_vector_store false chunks cn false sid s
      = ({ s with all_documents := chunks, active_session_id := sid }, false) := by
  simp [create_vector_store]

/-! ### C8 — extend vs rebuild dispatch -/

/-- C8 counterexample: the claim says `extend` (`add_to_existing=True`)
fails with `StateMismatch` when there is no existing index handle.  On the
empty slot the call does not fail: it succeeds (`true`) and silently builds
a fresh store from the new chunks alone. -/
theorem c8_extend_no_statemismatch_counterexample :
    (create_vector_store true [chunkB] ("docuchat") true none slotEmpty).2 = true ∧
    (create_vector_store true [chunkB] ("docuchat") true none slotEmpty).1.vector_store
      = some ⟨("docuchat"), [chunkB]⟩ := by
  decide

/-- C8 (amended): with `add_to_existing=True`, when the slot has no index
handle or its bound session differs from the caller's target, the call does
not raise any `StateMismatch`-style error — it silently performs a full
rebuild with only the new chunks (under the target collection name) and
reports success; the new chunks are appended to the existing index and
chunk list exactly when a handle exists and the binding matches. -/
theorem c8_extend_dispatch (chunks : List Chunk) (cn : String)
    (sid : Option String) (s : SlotState) :
    (¬ (s.vector_store.isSome = true ∧ s.active_session_id = sid) →
      create_vector_store true chunks cn true sid s
        = ({ s with
              vector_store := some ⟨(match sid with
                | some x => ("session_") ++ x
                | none => cn), chunks⟩
              all_documents := chunks
              active_session_id := sid }, true)) ∧
    (∀ h : IndexHandle, s.vector_store = some h → s.active_session_id = sid →
      create_vector_store true chunks cn true sid s
        = ({ s with
              vector_store := some { h with docs := h.docs ++ chunks }
              all_documents := s.all_documents ++ chunks }, true)) := by
  constructor
  · intro hmis
    have hcond : ¬ (True ∧ s.vector_store.isSome = true ∧ s.active_session_id = sid) :=
      fun hc => hmis hc.2
    simp only [create_vector_store, if_neg hcond, if_pos trivial]
  · intro h hv ha
    have hcond : True ∧ s.vector_store.isSome = true ∧ s.active_session_id = sid :=
      ⟨trivial, by simp [hv], ha⟩
    simp only [create_vector_store, if_pos hcond, if_pos trivial]
    simp [hv]

/-- C8 witness: the amended dispatch rule evaluated on concrete slots.  On
the empty slot a mismatched extend rebuilds from `[chunkB]` alone and
succeeds; on `slotC1` (bound to `sess0`, store over `[chunkA]`) a matching
extend appends `chunkB` to both the handle and the chunk list. -/
theorem c8_extend_dispatch_witness :
    create_vector_store true [chunkB] ("docuchat") true none slotEmpty
      = ({ slotEmpty with
            vector_store := some ⟨("docuchat"), [chunkB]⟩
            all_documents := [chunkB]
            active_session_id := none }, true) ∧
    create_vector_store true [chunkB] ("docuchat") true (some ("sess0")) slotC1
      = ({ slotC1 with
            vector_store := some ⟨("docuchat"), [chunkA, chunkB]⟩
            all_documents := [chunkA, chunkB] }, true) := by
  constructor
  · exact (c8_extend_dispatch [chunkB] ("docuchat") none slotEmpty).1 (by decide)
  · exact (c8_extend_dispatch [chunkB] ("docuchat") (some ("sess0")) slotC1).2
      ⟨("docuchat"), [chunkA]⟩ (by decide) (by decide)


/-! ### C10 — upload always indexes in ungrouped mode -/

/-- C10: after every successful upload the Vector Index Slot's bound session
id (`active_session_id`) is null: `upload_document` always calls
`create_vector_store` with `session_id=None`, so a successful upload while a
session's index is loaded rebuilds the slot unbound from that session. -/
theorem c10_upload_unbinds_slot (hasFileField : Bool) (filename : String)
    (add_to_existing : Bool) (file_id : String) (pages : Option Nat)
    (chunks : List Chunk) (embedOk : Bool) (s : SlotState)
    (fid : String) (nc np nt : Nat)
    (hok : (upload_document hasFileField filename add_to_existing file_id pages
        chunks embedOk s).2 = .ok fid nc np nt) :
    (upload_document hasFileField filename add_to_existing file_id pages
        chunks embedOk s).1.active_session_id = none := by
  by_cases h1 : hasFileField = true
  case neg => simp [upload_document, h1] at hok
  by_cases h2 : filename = ("")
  · simp [upload_document, h1, h2] at hok
  by_cases h3 : allowed_file filename = true
  case neg => simp [upload_document, h1, h2, h3] at hok
  cases hp : pages with
  | none => simp [upload_document, h1, h2, h3, hp] at hok
  | some np2 =>
    by_cases hc : (create_vector_store embedOk chunks ("docuchat") add_to_existing none s).2
        = true
    · have hact := create_vector_store_active_none embedOk chunks ("docuchat")
        add_to_existing s
      simp [upload_document, h1, h2, h3, hp, hc, initialize_qa_chain_active, hact]
    · simp [upload_document, h1, h2, h3, hp, hc] at hok

/-- C10 witness: uploading document B with `add_to_existing=True` while the
slot is bound to `sess0` succeeds and leaves the slot unbound. -/
theorem c10_upload_unbinds_slot_witness :
    (upload_document true ("b.pdf") true ("fidB") (some 2) [chunkB] true slotC1).2
      = UploadResult.ok ("fidB") 1 2 2 ∧
    (upload_document true ("b.pdf") true ("fidB") (some 2) [chunkB] true
        slotC1).1.active_session_id = none :=
  ⟨by decide,
    c10_upload_unbinds_slot true ("b.pdf") true ("fidB") (some 2) [chunkB] true slotC1
      ("fidB") 1 2 2 (by decide)⟩

/-! ### C3 — document removal and rebuild-or-clear -/

/-- A successful rebuild (`add_to_existing=False`, embedding succeeds)
replaces the handle, the chunk list and the binding wholesale. -/
theorem create_vector_store_rebuild_ok (chunks : List Chunk) (cn : String)
    (sid : Option String) (s : SlotState) :
    create_vector_store true chunks cn false sid s
      = ({ s with
            vector_store := some ⟨(match sid with
              | some x => ("session_") ++ x
              | none => cn), chunks⟩
            all_documents := chunks
            active_session_id := sid }, true) := by
  simp [create_vector_store]

/-- Value of `remove_document` on the clear branch: registered id, no chunk
of another document remains. -/
theorem remove_document_clear_eq (fid : String) (s : SlotState)
    (hmem : hasKey s.document_metadata fid = true)
    (hrem : s.all_documents.filter (fun d => ¬ d.file_id = fid) = []) :
    remove_document true fid s
      = ({ s with
            vector_store := none
            qa_chain := none
            all_documents := []
            document_metadata := delKey s.document_metadata fid },
          RemoveResult.ok (delKey s.document_metadata fid).length) := by
  unfold remove_document
  rw [if_neg (not_not_intro hmem)]
  dsimp only
  rw [if_neg (not_not_intro hrem)]

/-- Value of `remove_document` on the rebuild branch: registered id, some
chunk of another document remains. -/
theorem remove_document_rebuild_eq (fid : String) (s : SlotState)
    (hmem : hasKey s.document_metadata fid = true)
    (hrem : ¬ s.all_documents.filter (fun d => ¬ d.file_id = fid) = []) :
    remove_document true fid s
      = ({ s with
            vector_store := some ⟨("docuchat_multi"),
              s.all_documents.filter (fun d => ¬ d.file_id = fid)⟩
            qa_chain := some ⟨("docuchat_multi"),
              s.all_documents.filter (fun d => ¬ d.file_id = fid)⟩
            all_documents := s.all_documents.filter (fun d => ¬ d.file_id = fid)
            active_session_id := none
            document_metadata := delKey s.document_metadata fid },
          RemoveResult.ok (delKey s.document_metadata fid).length) := by
  unfold remove_document
  rw [if_neg (not_not_intro hmem)]
  dsimp only
  rw [if_pos hrem, create_vector_store_rebuild_ok]
  simp [initialize_qa_chain]

/-- C3: for a document id present in the registry, `remove_document` deletes
its record, computes the remaining chunks as exactly those of the slot whose
`file_id` differs, performs a full rebuild (fresh `docuchat_multi` store over
the remaining chunks, QA chain refreshed) when the remaining set is
non-empty, and clears the slot when it is empty; when every indexed chunk
belonged to the removed document (it was the last one), the index handle is
absent and a subsequent chat call fails with the no-active-index error. -/
theorem c3_remove_document_spec (fid : String) (s : SlotState)
    (hmem : hasKey s.document_metadata fid = true) :
    (remove_document true fid s).1.document_metadata = delKey s.document_metadata fid ∧
    (remove_document true fid s).1.all_documents
      = s.all_documents.filter (fun d => ¬ d.file_id = fid) ∧
    (¬ s.all_documents.filter (fun d => ¬ d.file_id = fid) = [] →
      (remove_document true fid s).1.vector_store
        = some ⟨("docuchat_multi"), s.all_documents.filter (fun d => ¬ d.file_id = fid)⟩ ∧
      (remove_document true fid s).1.qa_chain
        = some ⟨("docuchat_multi"), s.all_documents.filter (fun d => ¬ d.file_id = fid)⟩ ∧
      (remove_document true fid s).2
        = RemoveResult.ok (delKey s.document_metadata fid).length) ∧
    (s.all_documents.filter (fun d => ¬ d.file_id = fid) = [] →
      (remove_document true fid s).1.vector_store = none ∧
      (remove_document true fid s).1.qa_chain = none ∧
      (remove_document true fid s).2
        = RemoveResult.ok (delKey s.document_metadata fid).length) ∧
    ((∀ c ∈ s.all_documents, c.file_id = fid) →
      (remove_document true fid s).1.vector_store = none ∧
      ∀ (qaResult : Option (String × List Chunk)) (question : Option String)
          (sd : SessionsData),
        (chat qaResult question (remove_document true fid s).1 sd).2
          = ChatResult.noIndex) := by
  by_cases hrem : s.all_documents.filter (fun d => ¬ d.file_id = fid) = []
  · rw [remove_document_clear_eq fid s hmem hrem]
    refine ⟨rfl, hrem.symm, ?_, ?_, ?_⟩
    · intro h
      exact absurd hrem h
    · intro _
      exact ⟨rfl, rfl, rfl⟩
    · intro _
      refine ⟨rfl, ?_⟩
      intro qaResult question sd
      simp [chat]
  · rw [remove_document_rebuild_eq fid s hmem hrem]
    refine ⟨rfl, rfl, ?_, ?_, ?_⟩
    · intro _
      exact ⟨rfl, rfl, rfl⟩
    · intro h
      exact absurd h hrem
    · intro hall
      exfalso
      apply hrem
      rw [List.filter_eq_nil_iff]
      intro a ha
      simp [hall a ha]

/-- C3 witness: removing the only document (`fidA`) from `slotC1` empties
the registry, clears the index handle and the QA chain, and a subsequent
chat call reports that no document is indexed. -/
theorem c3_remove_document_spec_witness :
    hasKey slotC1.document_metadata ("fidA") = true ∧
    (remove_document true ("fidA") slotC1).1.vector_store = none ∧
    (chat (some (("ans"), [chunkA])) (some ("q")) (remove_document true ("fidA") slotC1).1
        ⟨[], none⟩).2 = ChatResult.noIndex :=
  ⟨by decide,
    ((c3_remove_document_spec ("fidA") slotC1 (by decide)).2.2.2.2 (by decide)).1,
    ((c3_remove_document_spec ("fidA") slotC1 (by decide)).2.2.2.2 (by decide)).2
      (some (("ans"), [chunkA])) (some ("q")) ⟨[], none⟩⟩


/-! ### C7 — session vector-store load: cache hit and failed load -/

/-- C7: `load_session_vector_store` is a no-op returning `true` when the
slot is already bound to the requested session with a live index (the
cache-hit path); otherwise, when no durable on-disk index exists for that
session (the load capability raises, modelled as `loadCap = none`), it
returns `false` and leaves the whole slot — index handle, chunks, QA chain,
binding and registry — untouched. -/
theorem c7_load_session_vector_store_spec (loadCap : Option IndexHandle)
    (session_id : String) (s : SlotState) :
    (s.active_session_id = some session_id → s.vector_store.isSome = true →
      load_session_vector_store loadCap session_id s = (s, true)) ∧
    (loadCap = none →
      load_session_vector_store loadCap session_id s = (s, false) ∨
      load_session_vector_store loadCap session_id s = (s, true)) ∧
    (¬ (s.active_session_id = some session_id ∧ s.vector_store.isSome = true) →
      loadCap = none →
      load_session_vector_store loadCap session_id s = (s, false)) := by
  refine ⟨?_, ?_, ?_⟩
  · intro ha hv
    simp [load_session_vector_store, ha, hv]
  · intro hcap
    by_cases hc : s.active_session_id = some session_id ∧ s.vector_store.isSome = true
    · right
      simp [load_session_vector_store, hc.1, hc.2]
    · left
      simp [load_session_vector_store, hc, hcap]
  · intro hc hcap
    simp [load_session_vector_store, hc, hcap]

/-- C7 witness: a cache hit on `slotC1` (bound to `sess0`, live index) is a
no-op returning `true`; a cache miss on the empty slot with a failing load
returns `false` with the slot untouched. -/
theorem c7_load_session_vector_store_spec_witness :
    load_session_vector_store (some ⟨("session_sess0"), [chunkA]⟩) ("sess0") slotC1
      = (slotC1, true) ∧
    load_session_vector_store none ("sess0") slotEmpty = (slotEmpty, false) :=
  ⟨(c7_load_session_vector_store_spec (some ⟨("session_sess0"), [chunkA]⟩) ("sess0")
      slotC1).1 (by decide) (by decide),
    (c7_load_session_vector_store_spec none ("sess0") slotEmpty).2.2 (by decide) rfl⟩

/-! ### C2 — chat never appends the answered question to the session store -/

/-- A store with one empty session `s1`, which is active. -/
def sdOne : SessionsData :=
  { sessions := [(("s1"),
      { id := ("s1"), name := ("New Chat 1"), created_at := ("t0"),
        updated_at := ("t0"), messages := [], documents := some [] })]
    active_session := some ("s1") }

/-- C2: the `/chat` handler returns the answer and citations but never
writes to the Session Store — for every input the store component of its
result is the store it was given, so no message is appended to the active
session (contradicting both the claim and the handler's own docstring,
which promises the conversation is automatically saved).  Concretely, a
successful answer over `sdOne` leaves its session with zero messages, while
an actual `add_message_to_session` call on the same store would have
stored one message. -/
theorem c2_chat_never_appends :
    (∀ (qaResult : Option (String × List Chunk)) (question : Option String)
        (s : SlotState) (sd : SessionsData),
      (chat qaResult question s sd).1 = sd) ∧
    (chat (some (("ans"), [chunkA])) (some ("What is the refund policy?")) slotC1 sdOne)
      = (sdOne, ChatResult.ok ("ans")
          [{ id := 1, content := ("Alpha."), source := ("a.pdf"), page := ("1") }]
          ("What is the refund policy?")) ∧
    ((lookupKey sdOne.sessions ("s1")).map (fun t => t.messages.length) = some 0) ∧
    ((lookupKey ((add_message_to_session ("m1") ("t1") [] ("s1")
          ("What is the refund policy?") ("ans") [] sdOne).1).sessions ("s1")).map
        (fun t => t.messages.length) = some 1) := by
  refine ⟨?_, by decide, by decide, by decide⟩
  intro qaResult question s sd
  unfold chat
  split
  · rfl
  · cases question with
    | none => rfl
    | some q =>
      cases qaResult with
      | none => rfl
      | some p => rfl

/-! ### C4 — citation truncation -/

/-- Follows the claim wording (spec side, for comparison with the code):
the citation content is the text — as given, with no strip — split into
sentences on `.`, `!`, `?` followed by whitespace, truncated to at most
`max_sentences` sentences joined by single spaces, a trailing ellipsis
appended when sentences were dropped, then the 300-character cap. -/
def fctClaimL (text : List Char) (max_sentences : Nat) : List Char :=
  let sentences := splitSentences text
  let selected := sentences.take max_sentences
  let result := List.intercalate [' '] selected
  let result := if sentences.length > max_sentences then result ++ ellipsisL else result
  applyCap result

/-- Follows the claim wording on strings: the truncation mechanism applied
to the raw chunk text. -/
def format_citation_claim (text : String) (max_sentences : Nat) : String :=
  ⟨fctClaimL text.data max_sentences⟩

/-- C4 counterexample: the claim says the citation content is the chunk
TEXT truncated by the sentence mechanism, but the code strips the text
first (`text.strip()`).  On " hello." the claim mechanism keeps the text
verbatim (one sentence, nothing dropped) while the code yields "hello.";
on "A. B. C.\n" the raw regex split yields four pieces (the trailing
newline opens a separator match, leaving an empty last piece), so the
claim mechanism appends a spurious ellipsis, while the code strips the
newline, finds three sentences, and appends none. -/
theorem c4_citation_not_raw_counterexample :
    format_citation_text (" hello.") 3 = ("hello.") ∧
    format_citation_claim (" hello.") 3 = (" hello.") ∧
    ¬ ("hello.") = (" hello.") ∧
    format_citation_text ("A. B. C.\n") 3 = ("A. B. C.") ∧
    format_citation_claim ("A. B. C.\n") 3 = ("A. B. C....") := by
  decide

set_option maxRecDepth 40000 in
/-- C4 (amended): for every chunk text, the citation content is the text
STRIPPED of leading and trailing whitespace and then truncated by the
claimed mechanism — at most `max_sentences` sentences (regex sentence
split on `.`, `!`, `?` followed by whitespace), joined by single spaces,
trailing ellipsis when sentences were dropped, then the 300-character hard
cap (truncate to 297 plus ellipsis).  A 5-sentence input yields exactly
the first 3 sentences plus ellipsis; a 400-character single-sentence input
yields 297 characters plus ellipsis; and every formatted citation is at
most 300 characters long. -/
theorem c4_format_citation_spec :
    (∀ (text : String) (max_sentences : Nat),
      format_citation_text text max_sentences
        = format_citation_claim (pyStrip text) max_sentences) ∧
    format_citation_text ("One. Two! Three? Four. Five.") 3
      = ("One. Two! Three?...") ∧
    format_citation_text ⟨List.replicate 400 ('a')⟩ 3
      = ⟨List.replicate 297 ('a') ++ ellipsisL⟩ ∧
    (∀ text : String, (format_citation_text text 3).length ≤ 300) := by
  refine ⟨?_, by decide, by decide, ?_⟩
  · intro text max_sentences
    rfl
  · intro text
    show (fctL text.data 3).length ≤ 300
    unfold fctL
    exact applyCap_length_le _


/-! ### C5 — session naming at creation -/

/-- C5 counterexample: the claim says a question of at most 50 characters
becomes the session name verbatim.  Creating a session with the 4-character
first question " hi " names it "hi": the code strips the question before
using it, so the verbatim text is not preserved. -/
theorem c5_name_not_verbatim_counterexample :
    (lookupKey ((create_new_session (some (" hi ")) ("sid1") ("t0") []
        ⟨[], none⟩).1).sessions ("sid1")).map (fun t => t.name) = some ("hi") ∧
    ¬ (lookupKey ((create_new_session (some (" hi ")) ("sid1") ("t0") []
        ⟨[], none⟩).1).sessions ("sid1")).map (fun t => t.name) = some (" hi ") ∧
    (" hi ").length ≤ 50 ∧ ¬ (" hi ") = ("") := by
  decide

/-- C5 (amended): the session name is derived from the stripped question:
when a non-empty question is given it is `generate_chat_name` of it — the
stripped question verbatim when the stripped form is at most 50 characters,
its first 47 characters plus "..." otherwise; with no question the name is
"New Chat {n+1}" where n is the current session count; the new session
becomes active; and a 60-character question still truncates to 47
characters plus "...". -/
theorem c5_create_session_name (q sid now : String) (dm : List (String × DocMeta))
    (sd : SessionsData) :
    (¬ q = ("") →
      lookupKey ((create_new_session (some q) sid now dm sd).1).sessions sid
        = some { id := sid, name := generate_chat_name q, created_at := now,
                 updated_at := now, messages := [], documents := some dm }) ∧
    (lookupKey ((create_new_session none sid now dm sd).1).sessions sid
        = some { id := sid, name := ("New Chat ") ++ toString (sd.sessions.length + 1),
                 created_at := now, updated_at := now, messages := [],
                 documents := some dm }) ∧
    generate_chat_name q
      = (if (pyStrip q).length > 50 then ⟨(pyStrip q).data.take 47⟩ ++ ("...")
         else pyStrip q) ∧
    ((create_new_session (some q) sid now dm sd).1).active_session = some sid ∧
    generate_chat_name ⟨List.replicate 60 ('a')⟩
      = ⟨List.replicate 47 ('a')⟩ ++ ("...") := by
  refine ⟨?_, ?_, rfl, rfl, by decide⟩
  · intro hq
    simp only [create_new_session, if_pos hq]
    exact lookupKey_setKey _ _ _
  · simp only [create_new_session]
    exact lookupKey_setKey _ _ _

/-- C5 witness: a 26-character question is stripped (here a fixed point) and
becomes the session name unchanged. -/
theorem c5_create_session_name_witness :
    ¬ ("What is the refund policy?") = ("") ∧
    lookupKey ((create_new_session (some ("What is the refund policy?")) ("sid1") ("t0")
        [] ⟨[], none⟩).1).sessions ("sid1")
      = some { id := ("sid1"), name := ("What is the refund policy?"),
               created_at := ("t0"), updated_at := ("t0"), messages := [],
               documents := some [] } :=
  ⟨by decide,
    ((c5_create_session_name ("What is the refund policy?") ("sid1") ("t0") []
        ⟨[], none⟩).1 (by decide)).trans (by decide)⟩

/-! ### C6 — appending a message to a session -/

/-- C6: `add_message_to_session` returns `false` (it does not raise) when
the session id is unknown, leaving the store unchanged; when the appended
message is the session's first, the session is renamed to
`generate_chat_name question` (the 50-character rule), overriding any name
chosen at creation time, and `updated_at` is refreshed to the append time. -/
theorem c6_add_message_spec (msg_id now : String) (dm : List (String × DocMeta))
    (sid q a : String) (cits : List Citation) (sd : SessionsData) :
    (lookupKey sd.sessions sid = none →
      add_message_to_session msg_id now dm sid q a cits sd = (sd, false)) ∧
    (∀ sess : ChatSession, lookupKey sd.sessions sid = some sess →
      sess.messages = [] →
      (add_message_to_session msg_id now dm sid q a cits sd).2 = true ∧
      lookupKey ((add_message_to_session msg_id now dm sid q a cits sd).1).sessions sid
        = some { sess with
            messages := [{ id := msg_id, timestamp := now, question := q,
                           answer := a, citations := cits }]
            updated_at := now
            name := generate_chat_name q
            documents := if sess.documents = none then some dm
                         else sess.documents }) := by
  constructor
  · intro h
    simp [add_message_to_session, h]
  · intro sess hs hm
    constructor
    · simp [add_message_to_session, hs]
    · simp only [add_message_to_session, hs]
      rw [lookupKey_updateKey, hs]
      by_cases hd : sess.documents = none <;> simp [hm, hd]

/-- C6 witness: on the empty store an append to unknown session `s1` returns
`false` and changes nothing; on `sdOne` (one empty session named "New Chat
1") appending the first message renames the session to the question and
refreshes `updated_at`. -/
theorem c6_add_message_spec_witness :
    add_message_to_session ("m1") ("t1") [] ("s1") ("hello") ("ans") [] ⟨[], none⟩
      = (⟨[], none⟩, false) ∧
    (add_message_to_session ("m1") ("t1") [] ("s1") ("hello") ("ans") [] sdOne).2
      = true ∧
    lookupKey ((add_message_to_session ("m1") ("t1") [] ("s1") ("hello") ("ans") []
        sdOne).1).sessions ("s1")
      = some { id := ("s1"), name := ("hello"), created_at := ("t0"),
               updated_at := ("t1"),
               messages := [{ id := ("m1"), timestamp := ("t1"),
                              question := ("hello"), answer := ("ans"),
                              citations := [] }],
               documents := some [] } :=
  ⟨(c6_add_message_spec ("m1") ("t1") [] ("s1") ("hello") ("ans") [] ⟨[], none⟩).1 rfl,
    ((c6_add_message_spec ("m1") ("t1") [] ("s1") ("hello") ("ans") [] sdOne).2
      { id := ("s1"), name := ("New Chat 1"), created_at := ("t0"),
        updated_at := ("t0"), messages := [], documents := some [] }
      (by decide) rfl).1,
    (((c6_add_message_spec ("m1") ("t1") [] ("s1") ("hello") ("ans") [] sdOne).2
      { id := ("s1"), name := ("New Chat 1"), created_at := ("t0"),
        updated_at := ("t0"), messages := [], documents := some [] }
      (by decide) rfl).2).trans (by decide)⟩

/-! ### C9 — rename validation -/

/-- C9: `rename_session` rejects every new name that is empty after
trimming or longer than 100 characters after trimming (invalid-name error,
store unchanged), reports not-found for an unknown session id when the name
is valid, and on success stores the trimmed name and refreshes
`updated_at`; a trimmed name of exactly 100 characters is accepted (it does
not satisfy either rejection condition, as the witness shows). -/
theorem c9_rename_session_spec (sid raw now : String) (sd : SessionsData) :
    ((pyStrip raw) = ("") ∨ (pyStrip raw).length > 100 →
      rename_session sid (some raw) now sd = (sd, RenameResult.errInvalidName)) ∧
    (¬ ((pyStrip raw) = ("") ∨ (pyStrip raw).length > 100) →
      hasKey sd.sessions sid = false →
      rename_session sid (some raw) now sd = (sd, RenameResult.errNotFound)) ∧
    (∀ sess : ChatSession, ¬ ((pyStrip raw) = ("") ∨ (pyStrip raw).length > 100) →
      lookupKey sd.sessions sid = some sess →
      (rename_session sid (some raw) now sd).2 = RenameResult.ok ∧
      lookupKey ((rename_session sid (some raw) now sd).1).sessions sid
        = some { sess with name := pyStrip raw, updated_at := now }) := by
  refine ⟨?_, ?_, ?_⟩
  · intro h
    simp only [rename_session]
    rw [if_pos h]
  · intro h hk
    simp only [rename_session]
    rw [if_neg h, if_pos (by simp [hk])]
  · intro sess h hs
    have hk : hasKey sd.sessions sid = true := by simp [hasKey, hs]
    constructor
    · simp only [rename_session]
      rw [if_neg h, if_neg (not_not_intro hk)]
    · simp only [rename_session]
      rw [if_neg h, if_neg (not_not_intro hk)]
      dsimp only
      rw [lookupKey_updateKey, hs]
      rfl

/-- C9 witness: on `sdOne`, a whitespace-only name and a 101-character name
are rejected as invalid, a valid name on an unknown id reports not-found,
and a name of exactly 100 characters is accepted, stored verbatim with
`updated_at` refreshed. -/
theorem c9_rename_session_spec_witness :
    rename_session ("s1") (some ("   ")) ("t2") sdOne
      = (sdOne, RenameResult.errInvalidName) ∧
    rename_session ("s1") (some ⟨List.replicate 101 ('x')⟩) ("t2") sdOne
      = (sdOne, RenameResult.errInvalidName) ∧
    rename_session ("nope") (some ("Valid")) ("t2") sdOne
      = (sdOne, RenameResult.errNotFound) ∧
    (rename_session ("s1") (some ⟨List.replicate 100 ('x')⟩) ("t2") sdOne).2
      = RenameResult.ok ∧
    lookupKey ((rename_session ("s1") (some ⟨List.replicate 100 ('x')⟩) ("t2")
        sdOne).1).sessions ("s1")
      = some { id := ("s1"), name := ⟨List.replicate 100 ('x')⟩,
               created_at := ("t0"), updated_at := ("t2"), messages := [],
               documents := some [] } :=
  ⟨(c9_rename_session_spec ("s1") ("   ") ("t2") sdOne).1 (by decide),
    (c9_rename_session_spec ("s1") ⟨List.replicate 101 ('x')⟩ ("t2") sdOne).1
      (by decide),
    (c9_rename_session_spec ("nope") ("Valid") ("t2") sdOne).2.1 (by decide)
      (by decide),
    ((c9_rename_session_spec ("s1") ⟨List.replicate 100 ('x')⟩ ("t2") sdOne).2.2
      { id := ("s1"), name := ("New Chat 1"), created_at := ("t0"),
        updated_at := ("t0"), messages := [], documents := some [] }
      (by decide) (by decide)).1,
    (((c9_rename_session_spec ("s1") ⟨List.replicate 100 ('x')⟩ ("t2") sdOne).2.2
      { id := ("s1"), name := ("New Chat 1"), created_at := ("t0"),
        updated_at := ("t0"), messages := [], documents := some [] }
      (by decide) (by decide)).2).trans (by decide)⟩

end DocuChat
